import Mathlib

/-!
Shallow embedding of `drivers/input/misc/fpc1020_tee.c` (FPC1020 fingerprint
sensor platform driver, OnePlus edition) and verification of its specification
claims.

The driver is modelled as pure functions from explicit inputs (device state,
sysfs write buffers, framebuffer events, probe environment) to a trace of
kernel-API effects plus a return value.  The `ONEPLUS_EDIT` macro is defined
unconditionally at the top of the source file, so the embedding contains
exactly the code compiled under `#ifdef ONEPLUS_EDIT` / `#if defined(CONFIG_FB)`
and omits the `#ifndef ONEPLUS_EDIT` pinctrl branch, which is compiled out.
-/

namespace Fpc1020

/-! ## Constants from the source and the kernel headers it uses -/

/-- `#define FPC1020_RESET_LOW_US 1000` (defined in the source, never used). -/
def FPC1020_RESET_LOW_US : Nat := 1000

/-- `#define FPC1020_RESET_HIGH1_US 100` (defined in the source, never used). -/
def FPC1020_RESET_HIGH1_US : Nat := 100

/-- `#define FPC1020_RESET_HIGH2_US 1250` (defined in the source, never used). -/
def FPC1020_RESET_HIGH2_US : Nat := 1250

/-- `#define FPC_TTW_HOLD_TIME 1000` — wake-lock hold time in ms. -/
def FPC_TTW_HOLD_TIME : Nat := 1000

/-- `#define KEY_FINGERPRINT 0x2ee` — unused key value chosen by the driver. -/
def KEY_FINGERPRINT : Nat := 0x2ee

/-- Linux `input.h` key code for KEY_HOME. -/
def KEY_HOME : Nat := 102

/-- Linux `input.h` key code for KEY_F2. -/
def KEY_F2 : Nat := 60

/-- Linux `input.h` key code for KEY_POWER. -/
def KEY_POWER : Nat := 116

/-- Linux `sched/prio.h`: `MIN_NICE = -20`, highest priority nice value. -/
def MIN_NICE : Int := -20

/-- Linux errno `EINVAL`. -/
def EINVAL : Int := 22

/-- Linux errno `ENOMEM`. -/
def ENOMEM : Int := 12

/-- Linux `irqreturn.h`: `IRQ_HANDLED = 1`. -/
def IRQ_HANDLED : Int := 1

/-- Linux `fb.h`: `FB_EARLY_EVENT_BLANK = 0x10`. -/
def FB_EARLY_EVENT_BLANK : Nat := 0x10

/-- Linux `fb.h`: `FB_EVENT_BLANK = 0x09`. -/
def FB_EVENT_BLANK : Nat := 0x09

/-- Linux `fb.h`: `FB_BLANK_UNBLANK = 0`. -/
def FB_BLANK_UNBLANK : Int := 0

/-- Linux `fb.h`: `FB_BLANK_POWERDOWN = 4`. -/
def FB_BLANK_POWERDOWN : Int := 4

/-! ## Effects

Each constructor is one kernel-API call the driver can make.  Constructors
such as `spiTransfer`, `gpioSetValue`, `usleepRange`, `mutexLock` and the
pinctrl calls are part of the vocabulary so that their absence from every
trace is a provable statement; the embedded driver code never emits them,
mirroring the source, which never performs those calls in any compiled path. -/

inductive Effect where
  | wakeLockTimeout (ms : Nat)
  | sysfsNotify (attr : String)
  | inputReportKey (key : Nat) (value : Int)
  | inputSync
  | setFingerprintdNice (nice : Int)
  | queueWork
  | gpioRequest (label : String)
  | gpioDirectionInput (gpio : Int)
  | gpioGetValue (gpio : Int)
  | gpioSetValue (gpio : Int) (value : Int)
  | usleepRange (lo hi : Nat)
  | spiTransfer
  | pinctrlGet
  | pinctrlLookupState (name : String)
  | pinctrlSelectState (name : String)
  | mutexLock
  | pushComponentInfo (name vendor : String)
  | inputRegisterDevice
  | inputFreeDevice
  | fbRegisterClient
  | requestIrq
  | enableIrqWake
  | wakeLockInit
  | deviceInitWakeup
  | sysfsCreateGroup
  | printk
  deriving DecidableEq

/-! ## Driver state (`struct fpc1020_data`, fields relevant to behaviour) -/

structure FpcState where
  irq_gpio : Int
  rst_gpio : Int
  id0_gpio : Int
  id1_gpio : Int
  id2_gpio : Int
  screen_state : Int
  sensor_version : Int
  deriving DecidableEq

/-! ## Interrupt handler

```
static irqreturn_t fpc1020_irq_handler(int irq, void *handle)
{
    struct fpc1020_data *fpc1020 = handle;
    wake_lock_timeout(&fpc1020->ttw_wl, msecs_to_jiffies(FPC_TTW_HOLD_TIME));
    sysfs_notify(&fpc1020->dev->kobj, NULL, dev_attr_irq.attr.name);
    if (!fpc1020->screen_state) {
        input_report_key(fpc1020->input_dev, KEY_FINGERPRINT, 1);
        input_sync(fpc1020->input_dev);
        input_report_key(fpc1020->input_dev, KEY_FINGERPRINT, 0);
        input_sync(fpc1020->input_dev);
    }
    return IRQ_HANDLED;
}
``` -/
def fpc1020_irq_handler (s : FpcState) : List Effect × Int :=
  ([Effect.wakeLockTimeout FPC_TTW_HOLD_TIME, Effect.sysfsNotify "irq"] ++
    (if s.screen_state = 0 then
      [Effect.inputReportKey KEY_FINGERPRINT 1, Effect.inputSync,
       Effect.inputReportKey KEY_FINGERPRINT 0, Effect.inputSync]
     else []),
   IRQ_HANDLED)

/-! ## Framebuffer notifier callback

Returns the updated state, the effect trace and the notifier return value. -/
def fb_notifier_callback (event : Nat) (blank : Int) (s : FpcState) :
    FpcState × List Effect × Int :=
  if event ≠ FB_EARLY_EVENT_BLANK then (s, [], 0)
  else if blank = FB_BLANK_UNBLANK then
    ({ s with screen_state := 1 }, [Effect.queueWork], 0)
  else if blank = FB_BLANK_POWERDOWN then
    ({ s with screen_state := 0 }, [Effect.queueWork], 0)
  else (s, [], 0)

/-! ## Deferred work (`fpc1020_suspend_resume`)

```
if (fpc1020->screen_state) set_fingerprintd_nice(0);
else                       set_fingerprintd_nice(MIN_NICE);
sysfs_notify(..., dev_attr_screen_state.attr.name);
``` -/
def fpc1020_suspend_resume (s : FpcState) : List Effect :=
  (if s.screen_state ≠ 0 then [Effect.setFingerprintdNice 0]
   else [Effect.setFingerprintdNice MIN_NICE]) ++
  [Effect.sysfsNotify "screen_state"]

/-! ## Sysfs attribute handlers -/

/-- `irq_get`: reads the irq GPIO value and prints it into the buffer; the
returned `Int` is the integer the buffer shows. -/
def irq_get (gpio_value : Int → Int) (s : FpcState) : List Effect × Int :=
  ([Effect.gpioGetValue s.irq_gpio], gpio_value s.irq_gpio)

/-- `irq_ack`: drops a debug printk and returns `count`. -/
def irq_ack (count : Nat) : List Effect × Int :=
  ([Effect.printk], (count : Int))

/-- Byte-wise prefix test: `isPrefixChars pre buf` is true when `pre` is an
initial segment of `buf`, like C `!strncmp(buf, pre, strlen(pre))` on
NUL-terminated strings. -/
def isPrefixChars : List Char → List Char → Bool
  | [], _ => true
  | _ :: _, [] => false
  | a :: as, b :: bs => if a = b then isPrefixChars as bs else false

/-- `!strncmp(buf, pre, strlen(pre))`. -/
def strncmp_eq (buf pre : String) : Bool :=
  isPrefixChars pre.data buf.data

/-- `report_home_set`: translated from the `strncmp` chain of the source. -/
def report_home_set (ignor_home_for_ESD : Nat) (buf : String) (count : Nat) :
    List Effect × Int :=
  if ignor_home_for_ESD ≠ 0 then ([], -EINVAL)
  else if strncmp_eq buf "down" then
    ([Effect.inputReportKey KEY_HOME 1, Effect.inputSync], (count : Int))
  else if strncmp_eq buf "up" then
    ([Effect.inputReportKey KEY_HOME 0, Effect.inputSync], (count : Int))
  else if strncmp_eq buf "timeout" then
    ([Effect.inputReportKey KEY_F2 1, Effect.inputSync,
      Effect.inputReportKey KEY_F2 0, Effect.inputSync], (count : Int))
  else ([], -EINVAL)

/-- `update_info_set`. -/
def update_info_set (buf : String) (count : Nat) : List Effect × Int :=
  (if strncmp_eq buf "n" then [Effect.pushComponentInfo "N/A" "N/A"] else [],
   (count : Int))

/-- `screen_state_get`: prints `fpc1020->screen_state`. -/
def screen_state_get (s : FpcState) : List Effect × Int :=
  ([], s.screen_state)

/-- `sensor_version_get`: prints `fpc1020->sensor_version`. -/
def sensor_version_get (s : FpcState) : List Effect × Int :=
  ([], s.sensor_version)

/-! ## Probe (`fpc1020_probe`) and its helpers -/

/-- `gpio_is_valid(number)` from `linux/gpio.h`:
`(unsigned int)(number) < ARCH_NR_GPIOS` with `ARCH_NR_GPIOS = 512`. -/
def gpio_is_valid (g : Int) : Bool :=
  decide (0 ≤ g ∧ g < 512)

/-- Environment a probe run sees: device-tree lookups and return codes of the
kernel services it calls. -/
structure ProbeEnv where
  alloc_ok : Bool
  has_np : Bool
  of_gpio : String → Int
  gpio_request_rc : String → Int
  dir_input_rc : Int → Int
  input_alloc_ok : Bool
  input_register_rc : Int
  fb_register_rc : Int
  request_irq_rc : Int
  sysfs_rc : Int
  gpio_value : Int → Int

/-- `fpc1020_request_named_gpio`: returns `(rc, gpio, effects)`.  On a failed
`of_get_named_gpio` the negative error is stored into `*gpio` and returned. -/
def fpc1020_request_named_gpio (env : ProbeEnv) (label : String) :
    Int × Int × List Effect :=
  let g := env.of_gpio label
  if g < 0 then (g, g, [])
  else
    let rc := env.gpio_request_rc label
    if rc ≠ 0 then (rc, g, [Effect.gpioRequest label])
    else (0, g, [Effect.gpioRequest label])

/-- `fpc1020_input_init`: allocate, set capability bits, register. -/
def fpc1020_input_init (env : ProbeEnv) : Int × List Effect :=
  if ¬ env.input_alloc_ok then (-ENOMEM, [])
  else if env.input_register_rc ≠ 0 then
    (env.input_register_rc, [Effect.inputRegisterDevice, Effect.inputFreeDevice])
  else (0, [Effect.inputRegisterDevice])

/-- `fpc1020_input_destroy`. -/
def fpc1020_input_destroy (input_dev_present : Bool) : List Effect :=
  if input_dev_present then [Effect.inputFreeDevice] else []

/-- The hardware-ID decode at the end of probe: the `if`/`else if` chain over
`(id0, id1, id2)` following `fpc1020->sensor_version = 0x02;`.  Returns the
final `sensor_version` and the `push_component_info` effect. -/
def sensor_id_decode (id0 id1 id2 : Int) : Int × List Effect :=
  if id0 ≠ 0 ∧ id1 ≠ 0 ∧ id2 ≠ 0 then
    (0x01, [Effect.pushComponentInfo "fpc1245" "FPC(OF)"])
  else if id0 ≠ 0 ∧ id1 = 0 ∧ id2 = 0 then
    (0x01, [Effect.pushComponentInfo "fpc1245" "FPC(Primax)"])
  else if id0 = 0 ∧ id1 = 0 ∧ id2 ≠ 0 then
    (0x01, [Effect.pushComponentInfo "fpc1245" "FPC(truly)"])
  else if id0 ≠ 0 ∧ id1 ≠ 0 ∧ id2 = 0 then
    (0x02, [Effect.pushComponentInfo "fpc1263" "FPC(OF)"])
  else if id0 = 0 ∧ id1 = 0 ∧ id2 = 0 then
    (0x02, [Effect.pushComponentInfo "fpc1263" "FPC(Primax)"])
  else if id0 = 0 ∧ id1 ≠ 0 ∧ id2 ≠ 0 then
    (0x02, [Effect.pushComponentInfo "fpc1263" "FPC(truly)"])
  else if id0 = 0 ∧ id1 ≠ 0 ∧ id2 = 0 then
    (0x02, [Effect.pushComponentInfo "fpc1263" "FPC(f/p)"])
  else if id0 ≠ 0 ∧ id1 = 0 ∧ id2 ≠ 0 then
    (0x02, [Effect.pushComponentInfo "fpc1263" "FPC(Goodix)"])
  else
    (0x02, [Effect.pushComponentInfo "fpc" "FPC"])

/-- `fpc1020_probe`, ONEPLUS_EDIT + CONFIG_FB build.  `Except.error rc` models
reaching `exit:` with a nonzero `rc`; the accumulated effect trace is returned
in either case.  `devm_kzalloc` zero-fills the structure, so `rst_gpio`
(never assigned anywhere in the driver) stays `0`. -/
def fpc1020_probe (env : ProbeEnv) : Except Int FpcState × List Effect :=
  if ¬ env.alloc_ok then (Except.error (-ENOMEM), []) else
  if ¬ env.has_np then (Except.error (-EINVAL), [Effect.printk]) else
  let r1 := fpc1020_request_named_gpio env "fpc,irq-gpio"
  let irq_gpio := r1.2.1
  let tr1 := Effect.printk :: r1.2.2
  if r1.1 ≠ 0 then (Except.error r1.1, tr1) else
  let tr2 := tr1 ++ [Effect.gpioDirectionInput irq_gpio]
  if env.dir_input_rc irq_gpio ≠ 0 then
    (Except.error (env.dir_input_rc irq_gpio), tr2) else
  let r2 := fpc1020_request_named_gpio env "fpc,gpio_id0"
  let id0_gpio := r2.2.1
  let tr3 := tr2 ++ r2.2.2 ++
    (if gpio_is_valid id0_gpio then [Effect.gpioDirectionInput id0_gpio] else [])
  let r3 := fpc1020_request_named_gpio env "fpc,gpio_id1"
  let id1_gpio := r3.2.1
  let tr4 := tr3 ++ r3.2.2 ++
    (if gpio_is_valid id1_gpio then [Effect.gpioDirectionInput id1_gpio] else [])
  let r4 := fpc1020_request_named_gpio env "fpc,gpio_id2"
  let id2_gpio := r4.2.1
  let tr5 := tr4 ++ r4.2.2 ++
    (if gpio_is_valid id2_gpio then [Effect.gpioDirectionInput id2_gpio] else [])
  let ri := fpc1020_input_init env
  let tr6 := tr5 ++ ri.2
  if ri.1 ≠ 0 then (Except.error ri.1, tr6) else
  let tr7 := tr6 ++ [Effect.fbRegisterClient]
  let tr8 := tr7 ++ [Effect.requestIrq]
  if env.request_irq_rc ≠ 0 then (Except.error env.request_irq_rc, tr8) else
  let tr9 := tr8 ++ [Effect.enableIrqWake, Effect.wakeLockInit,
                     Effect.deviceInitWakeup, Effect.sysfsCreateGroup]
  if env.sysfs_rc ≠ 0 then (Except.error env.sysfs_rc, tr9) else
  let id0 := env.gpio_value id0_gpio
  let id1 := env.gpio_value id1_gpio
  let id2 := env.gpio_value id2_gpio
  let tr10 := tr9 ++ [Effect.gpioGetValue id0_gpio, Effect.gpioGetValue id1_gpio,
                      Effect.gpioGetValue id2_gpio]
  let dec := sensor_id_decode id0 id1 id2
  (Except.ok { irq_gpio := irq_gpio, rst_gpio := 0,
               id0_gpio := id0_gpio, id1_gpio := id1_gpio, id2_gpio := id2_gpio,
               screen_state := 1, sensor_version := dec.1 },
   tr10 ++ dec.2)

/-! ## Interleaving model for the interrupt handler vs. the fb callback

The driver initialises `fpc1020->lock` with `mutex_init` in probe but no
function of the file ever calls `mutex_lock`/`mutex_unlock`.  The model
breaks the two racing code paths into their atomic shared-memory steps: the
shared cell is `screen_state`; the interrupt thread reads it into a local
(`reg`) before its conditional key report, while the fb thread writes it.
A `mutexLock` effect would mark a lock acquisition; no action emits one,
mirroring the source. -/

inductive Action where
  | doWakeLock
  | doNotifyIrq
  | readScreen
  | emitKeysIfOff
  | writeScreen (v : Int)
  | doQueueWork
  deriving DecidableEq

/-- One atomic step: given the shared `screen_state` cell and the irq thread's
local register, produce the new cell, new register, and emitted effects. -/
def runAction (screen reg : Int) (a : Action) : Int × Int × List Effect :=
  match a with
  | Action.doWakeLock => (screen, reg, [Effect.wakeLockTimeout FPC_TTW_HOLD_TIME])
  | Action.doNotifyIrq => (screen, reg, [Effect.sysfsNotify "irq"])
  | Action.readScreen => (screen, screen, [])
  | Action.emitKeysIfOff =>
      (screen, reg,
       if reg = 0 then
         [Effect.inputReportKey KEY_FINGERPRINT 1, Effect.inputSync,
          Effect.inputReportKey KEY_FINGERPRINT 0, Effect.inputSync]
       else [])
  | Action.writeScreen v => (v, reg, [])
  | Action.doQueueWork => (screen, reg, [Effect.queueWork])

/-- Run a list of actions sequentially. -/
def runSeq (screen reg : Int) : List Action → List Effect
  | [] => []
  | a :: rest =>
      let r := runAction screen reg a
      r.2.2 ++ runSeq r.1 r.2.1 rest

/-- Run two threads under a schedule: `true` steps thread 1 (skipping if it is
done), `false` steps thread 2; when the schedule ends the remaining actions of
thread 1 then thread 2 are drained.  Every interleaving of the two threads is
`runSched` of some schedule, and every schedule yields an interleaving. -/
def runSched : List Bool → Int → Int → List Action → List Action → List Effect
  | [], screen, reg, t1, t2 => runSeq screen reg (t1 ++ t2)
  | true :: rest, screen, reg, a :: t1, t2 =>
      let r := runAction screen reg a
      r.2.2 ++ runSched rest r.1 r.2.1 t1 t2
  | true :: rest, screen, reg, [], t2 => runSched rest screen reg [] t2
  | false :: rest, screen, reg, t1, a :: t2 =>
      let r := runAction screen reg a
      r.2.2 ++ runSched rest r.1 r.2.1 t1 t2
  | false :: rest, screen, reg, t1, [] => runSched rest screen reg t1 []

/-- The interrupt handler's atomic steps. -/
def irqThread : List Action :=
  [Action.doWakeLock, Action.doNotifyIrq, Action.readScreen, Action.emitKeysIfOff]

/-- The fb callback's atomic steps for `FB_EARLY_EVENT_BLANK` with
`FB_BLANK_POWERDOWN`. -/
def fbPowerdownThread : List Action :=
  [Action.writeScreen 0, Action.doQueueWork]

/-- Number of userspace-visible `sysfs_notify` events on the `irq` attribute
in a trace. -/
def countIrqNotify (tr : List Effect) : Nat :=
  tr.countP (fun e => e == Effect.sysfsNotify "irq")

/-- A burst of `n` interrupt edges, each reaching the handler (screen state
unchanged in between: the handler never writes it). -/
def irq_burst : Nat → FpcState → List Effect
  | 0, _ => []
  | n + 1, s => (fpc1020_irq_handler s).1 ++ irq_burst n s

/-! ## Effect classification helpers (shared) -/

/-- Effects the compiled driver can emit: everything except SPI transfers,
pinctrl calls, GPIO output writes, delays, mutex acquisitions; GPIO requests
only for the four device-tree labels the source names. -/
def opEffectOk (e : Effect) : Bool :=
  match e with
  | Effect.spiTransfer => false
  | Effect.pinctrlGet => false
  | Effect.pinctrlLookupState _ => false
  | Effect.pinctrlSelectState _ => false
  | Effect.gpioSetValue _ _ => false
  | Effect.usleepRange _ _ => false
  | Effect.mutexLock => false
  | Effect.gpioRequest l =>
      ["fpc,irq-gpio", "fpc,gpio_id0", "fpc,gpio_id1", "fpc,gpio_id2"].contains l
  | _ => true

/-- The GPIO request labels occurring in a trace, in order. -/
def requestedLabels (tr : List Effect) : List String :=
  tr.filterMap (fun e =>
    match e with
    | Effect.gpioRequest l => some l
    | _ => none)

/-! ## Spec-side definition for the `report_home` claim (refinement target)

Stated from the claim's words: `-EINVAL` whenever `ignor_home_for_ESD` is
nonzero, and also whenever the buffer does not begin with `down`, `up` or
`timeout`; otherwise exactly the corresponding key events and the full count. -/
def report_home_claimed (ignor_home_for_ESD : Nat) (buf : String) (count : Nat) :
    List Effect × Int :=
  if ignor_home_for_ESD ≠ 0 then ([], -EINVAL)
  else if ¬ (strncmp_eq buf "down" ∨ strncmp_eq buf "up" ∨
             strncmp_eq buf "timeout") then ([], -EINVAL)
  else if strncmp_eq buf "down" then
    ([Effect.inputReportKey KEY_HOME 1, Effect.inputSync], (count : Int))
  else if strncmp_eq buf "up" then
    ([Effect.inputReportKey KEY_HOME 0, Effect.inputSync], (count : Int))
  else
    ([Effect.inputReportKey KEY_F2 1, Effect.inputSync,
      Effect.inputReportKey KEY_F2 0, Effect.inputSync], (count : Int))

/-- The three `(id0, id1, id2)` patterns the source maps to fpc1245
(sensor_version `0x01`): O-film `(1,1,1)`, Primax `(1,0,0)`, truly `(0,0,1)`,
with a C truth-value reading (nonzero = 1). -/
def fpc1245Pattern (id0 id1 id2 : Int) : Prop :=
  (id0 ≠ 0 ∧ id1 ≠ 0 ∧ id2 ≠ 0) ∨
  (id0 ≠ 0 ∧ id1 = 0 ∧ id2 = 0) ∨
  (id0 = 0 ∧ id1 = 0 ∧ id2 ≠ 0)

instance (id0 id1 id2 : Int) : Decidable (fpc1245Pattern id0 id1 id2) := by
  unfold fpc1245Pattern; infer_instance

/-! ## Concrete data for witnesses and counterexamples -/

/-- A probe environment in which every kernel service succeeds, all four
named GPIOs resolve to line 3, and every GPIO reads 1. -/
def okEnv : ProbeEnv where
  alloc_ok := true
  has_np := true
  of_gpio := fun _ => 3
  gpio_request_rc := fun _ => 0
  dir_input_rc := fun _ => 0
  input_alloc_ok := true
  input_register_rc := 0
  fb_register_rc := 0
  request_irq_rc := 0
  sysfs_rc := 0
  gpio_value := fun _ => 1

/-- The state `fpc1020_probe okEnv` ends in. -/
def okState : FpcState where
  irq_gpio := 3
  rst_gpio := 0
  id0_gpio := 3
  id1_gpio := 3
  id2_gpio := 3
  screen_state := 1
  sensor_version := 0x01

/-- A post-probe state with the screen off. -/
def screenOffState : FpcState where
  irq_gpio := 3
  rst_gpio := 0
  id0_gpio := 3
  id1_gpio := 3
  id2_gpio := 3
  screen_state := 0
  sensor_version := 0x02

/-! ## Effect-kind predicates -/

/-- GPIO output drive or delay: what a reset pulse would consist of. -/
def isGpioDrive (e : Effect) : Bool :=
  match e with
  | Effect.gpioSetValue _ _ => true
  | Effect.usleepRange _ _ => true
  | _ => false

/-- Pinctrl subsystem calls. -/
def isPinctrlOp (e : Effect) : Bool :=
  match e with
  | Effect.pinctrlGet => true
  | Effect.pinctrlLookupState _ => true
  | Effect.pinctrlSelectState _ => true
  | _ => false

/-- SPI data-protocol traffic. -/
def isSpiOp (e : Effect) : Bool :=
  match e with
  | Effect.spiTransfer => true
  | _ => false

/-! ## Helper lemmas: every operation's trace satisfies `opEffectOk` -/

theorem irq_handler_all_ok (s : FpcState) :
    ((fpc1020_irq_handler s).1).all opEffectOk = true := by
  unfold fpc1020_irq_handler
  split <;> rfl

theorem fb_callback_all_ok (event : Nat) (blank : Int) (s : FpcState) :
    ((fb_notifier_callback event blank s).2.1).all opEffectOk = true := by
  unfold fb_notifier_callback
  split
  · rfl
  · split
    · rfl
    · split <;> rfl

theorem suspend_resume_all_ok (s : FpcState) :
    (fpc1020_suspend_resume s).all opEffectOk = true := by
  unfold fpc1020_suspend_resume
  split <;> rfl

theorem report_home_all_ok (ignor count : Nat) (buf : String) :
    ((report_home_set ignor buf count).1).all opEffectOk = true := by
  unfold report_home_set
  split
  · rfl
  · split
    · rfl
    · split
      · rfl
      · split <;> rfl

theorem update_info_all_ok (buf : String) (count : Nat) :
    ((update_info_set buf count).1).all opEffectOk = true := by
  unfold update_info_set
  split <;> rfl

theorem irq_get_all_ok (gv : Int → Int) (s : FpcState) :
    ((irq_get gv s).1).all opEffectOk = true := rfl

theorem irq_ack_all_ok (count : Nat) :
    ((irq_ack count).1).all opEffectOk = true := rfl

theorem screen_state_get_all_ok (s : FpcState) :
    ((screen_state_get s).1).all opEffectOk = true := rfl

theorem sensor_version_get_all_ok (s : FpcState) :
    ((sensor_version_get s).1).all opEffectOk = true := rfl

theorem input_init_all_ok (env : ProbeEnv) :
    ((fpc1020_input_init env).2).all opEffectOk = true := by
  unfold fpc1020_input_init
  split
  · rfl
  · split <;> rfl

theorem input_destroy_all_ok (b : Bool) :
    (fpc1020_input_destroy b).all opEffectOk = true := by
  unfold fpc1020_input_destroy
  split <;> rfl

theorem request_named_gpio_all_ok (env : ProbeEnv) (label : String)
    (h : opEffectOk (Effect.gpioRequest label) = true) :
    ((fpc1020_request_named_gpio env label).2.2).all opEffectOk = true := by
  simp only [fpc1020_request_named_gpio]
  split
  · rfl
  · split <;> simp [h]

theorem sensor_id_decode_all_ok (id0 id1 id2 : Int) :
    ((sensor_id_decode id0 id1 id2).2).all opEffectOk = true := by
  unfold sensor_id_decode
  repeat' split
  all_goals rfl

theorem probe_all_ok (env : ProbeEnv) :
    ((fpc1020_probe env).2).all opEffectOk = true := by
  simp only [fpc1020_probe]
  repeat' split
  all_goals
    simp only [List.all_append, List.all_cons, List.all_nil, Bool.and_eq_true,
      and_true, true_and]
  all_goals
    repeat' refine And.intro ?_ ?_
  all_goals
    first
      | rfl
      | exact request_named_gpio_all_ok env _ rfl
      | exact input_init_all_ok env
      | exact sensor_id_decode_all_ok _ _ _

/-! ## Deriving absence of effect kinds from `opEffectOk` -/

theorem all_not_of_all_ok (tr : List Effect) (p : Effect → Bool)
    (hp : ∀ e, opEffectOk e = true → p e = false)
    (h : tr.all opEffectOk = true) :
    tr.all (fun e => !(p e)) = true := by
  rw [List.all_eq_true] at h ⊢
  intro e he
  simp [hp e (h e he)]

theorem ok_no_spi (e : Effect) (h : opEffectOk e = true) : isSpiOp e = false := by
  cases e <;> simp_all [opEffectOk, isSpiOp]

theorem ok_no_pinctrl (e : Effect) (h : opEffectOk e = true) :
    isPinctrlOp e = false := by
  cases e <;> simp_all [opEffectOk, isPinctrlOp]

theorem ok_no_gpio_drive (e : Effect) (h : opEffectOk e = true) :
    isGpioDrive e = false := by
  cases e <;> simp_all [opEffectOk, isGpioDrive]

/-! ## Counting effects in interleaved executions -/

theorem runSeq_countP (p : Effect → Bool) (g : Action → Nat)
    (hg : ∀ screen reg a, ((runAction screen reg a).2.2).countP p = g a)
    (l : List Action) :
    ∀ (screen reg : Int), (runSeq screen reg l).countP p = (l.map g).sum := by
  induction l with
  | nil => intro screen reg; rfl
  | cons a rest ih =>
      intro screen reg
      simp only [runSeq, List.countP_append, List.map_cons, List.sum_cons, hg, ih]

theorem runSched_countP (p : Effect → Bool) (g : Action → Nat)
    (hg : ∀ screen reg a, ((runAction screen reg a).2.2).countP p = g a)
    (sched : List Bool) :
    ∀ (screen reg : Int) (t1 t2 : List Action),
      (runSched sched screen reg t1 t2).countP p =
        (t1.map g).sum + (t2.map g).sum := by
  induction sched with
  | nil =>
      intro screen reg t1 t2
      simp only [runSched]
      rw [runSeq_countP p g hg]
      simp [List.map_append]
  | cons b rest ih =>
      intro screen reg t1 t2
      cases b
      · cases t2 with
        | nil =>
            simp only [runSched]
            rw [ih]
        | cons a t2' =>
            simp only [runSched, List.countP_append, List.map_cons, List.sum_cons,
              hg, ih]
            omega
      · cases t1 with
        | nil =>
            simp only [runSched]
            rw [ih]
        | cons a t1' =>
            simp only [runSched, List.countP_append, List.map_cons, List.sum_cons,
              hg, ih]
            omega

/-- Per-action contribution to the irq-notification count. -/
def notifyCount (a : Action) : Nat :=
  if a = Action.doNotifyIrq then 1 else 0

theorem runAction_notifyCount (screen reg : Int) (a : Action) :
    ((runAction screen reg a).2.2).countP
      (fun e => e == Effect.sysfsNotify "irq") = notifyCount a := by
  cases a <;> first
    | rfl
    | (simp only [runAction, notifyCount]; split <;> rfl)

theorem runAction_mutexCount (screen reg : Int) (a : Action) :
    ((runAction screen reg a).2.2).countP
      (fun e => e == Effect.mutexLock) = 0 := by
  cases a <;> first
    | rfl
    | (simp only [runAction]; split <;> rfl)

theorem irq_handler_notify_count (s : FpcState) :
    countIrqNotify (fpc1020_irq_handler s).1 = 1 := by
  unfold countIrqNotify fpc1020_irq_handler
  split <;> rfl

/-! ## Coherence of the thread action lists with the embedded C functions -/

theorem irqThread_matches_handler (s : FpcState) (reg : Int) :
    runSeq s.screen_state reg irqThread = (fpc1020_irq_handler s).1 := by
  simp only [irqThread, runSeq, runAction, fpc1020_irq_handler]
  split <;> simp

theorem fbThread_matches_callback (s : FpcState) (reg : Int) :
    runSeq s.screen_state reg fbPowerdownThread =
      (fb_notifier_callback FB_EARLY_EVENT_BLANK FB_BLANK_POWERDOWN s).2.1 := by
  rfl

/-! ## Hardware-ID decode characterisation -/

theorem sensor_id_decode_fst (id0 id1 id2 : Int) :
    (sensor_id_decode id0 id1 id2).1 = 0x01 ∨
    (sensor_id_decode id0 id1 id2).1 = 0x02 := by
  unfold sensor_id_decode
  repeat' split
  all_goals simp

theorem sensor_id_decode_one_iff (id0 id1 id2 : Int) :
    (sensor_id_decode id0 id1 id2).1 = 0x01 ↔ fpc1245Pattern id0 id1 id2 := by
  unfold sensor_id_decode fpc1245Pattern
  repeat' split
  all_goals simp_all

/-! ## Probe success characterisation -/

theorem probe_ok_state (env : ProbeEnv) (s : FpcState)
    (h : (fpc1020_probe env).1 = Except.ok s) :
    s.screen_state = 1 ∧ s.rst_gpio = 0 ∧
    s.sensor_version =
      (sensor_id_decode (env.gpio_value s.id0_gpio) (env.gpio_value s.id1_gpio)
        (env.gpio_value s.id2_gpio)).1 := by
  simp only [fpc1020_probe] at h
  repeat' split at h
  all_goals first
    | exact Except.noConfusion h
    | (injection h with h2; subst h2; exact ⟨rfl, rfl, rfl⟩)

/-! ## Claim theorems -/

/-- Claim C1: for every hardware interrupt delivered to the driver, the
handler first acquires the wake lock for the bounded duration
`FPC_TTW_HOLD_TIME = 1000` ms, then issues a sysfs notification on the `irq`
attribute, and returns `IRQ_HANDLED` — in every driver state. -/
theorem claim_C1_irq_wakelock_notify_handled (s : FpcState) :
    FPC_TTW_HOLD_TIME = 1000 ∧
    ((fpc1020_irq_handler s).1).take 2 =
      [Effect.wakeLockTimeout FPC_TTW_HOLD_TIME, Effect.sysfsNotify "irq"] ∧
    (fpc1020_irq_handler s).2 = IRQ_HANDLED := by
  refine ⟨rfl, ?_, rfl⟩
  unfold fpc1020_irq_handler
  split <;> rfl

/-- Claim C2: an `FB_EARLY_EVENT_BLANK` transition to `FB_BLANK_POWERDOWN`
sets `screen_state` to 0 and queues work whose execution escalates
fingerprintd to `MIN_NICE` and notifies the `screen_state` sysfs attribute;
the transition to `FB_BLANK_UNBLANK` sets `screen_state` to 1 and queues work
that restores nice 0 and issues the same notification. -/
theorem claim_C2_fb_blank_transitions (s : FpcState) :
    ((fb_notifier_callback FB_EARLY_EVENT_BLANK FB_BLANK_POWERDOWN s).1.screen_state
        = 0 ∧
     (fb_notifier_callback FB_EARLY_EVENT_BLANK FB_BLANK_POWERDOWN s).2.1 =
        [Effect.queueWork] ∧
     fpc1020_suspend_resume
        (fb_notifier_callback FB_EARLY_EVENT_BLANK FB_BLANK_POWERDOWN s).1 =
        [Effect.setFingerprintdNice MIN_NICE, Effect.sysfsNotify "screen_state"]) ∧
    ((fb_notifier_callback FB_EARLY_EVENT_BLANK FB_BLANK_UNBLANK s).1.screen_state
        = 1 ∧
     (fb_notifier_callback FB_EARLY_EVENT_BLANK FB_BLANK_UNBLANK s).2.1 =
        [Effect.queueWork] ∧
     fpc1020_suspend_resume
        (fb_notifier_callback FB_EARLY_EVENT_BLANK FB_BLANK_UNBLANK s).1 =
        [Effect.setFingerprintdNice 0, Effect.sysfsNotify "screen_state"]) :=
  ⟨⟨rfl, rfl, rfl⟩, ⟨rfl, rfl, rfl⟩⟩

/-- Claim C3 is false on the code: a burst of two interrupt edges, each
reaching the handler, yields two sysfs notifications on the `irq` attribute —
one per edge, not one per burst.  The driver has no debounce window. -/
theorem claim_C3_counterexample :
    countIrqNotify (irq_burst 2 okState) = 2 ∧
    (countIrqNotify (irq_burst 2 okState) == 1) = false := by decide

/-- Claim C3 amended: the driver performs no time-based debouncing; every
handler invocation emits exactly one userspace-visible sysfs notification on
the `irq` attribute, so a burst of `n` edges that each reach the handler
produces exactly `n` notifications.  Any coalescing of edges comes from the
IRQ core's `IRQF_ONESHOT` latching, not from this driver. -/
theorem claim_C3_amended_no_debounce (n : Nat) (s : FpcState) :
    countIrqNotify (irq_burst n s) = n := by
  induction n with
  | zero => rfl
  | succ k ih =>
      have h1 := irq_handler_notify_count s
      calc countIrqNotify (irq_burst (k + 1) s)
          = countIrqNotify ((fpc1020_irq_handler s).1 ++ irq_burst k s) := rfl
        _ = countIrqNotify (fpc1020_irq_handler s).1 +
              countIrqNotify (irq_burst k s) := by
            simp [countIrqNotify, List.countP_append]
        _ = 1 + k := by rw [h1, ih]
        _ = k + 1 := Nat.add_comm 1 k

/-- Claim C4 is false on the code: at a fully successful probe environment the
driver requests exactly the irq and the three hardware-id GPIO lines — no
reset line — no operation emits a GPIO output write or a delay (so no reset
pulse is ever driven), and the `rst_gpio` field keeps its `kzalloc` value 0. -/
theorem claim_C4_counterexample :
    requestedLabels (fpc1020_probe okEnv).2 =
      ["fpc,irq-gpio", "fpc,gpio_id0", "fpc,gpio_id1", "fpc,gpio_id2"] ∧
    ((fpc1020_probe okEnv).2).all (fun e => !(isGpioDrive e)) = true ∧
    ((fpc1020_irq_handler okState).1).all (fun e => !(isGpioDrive e)) = true ∧
    ((fpc1020_irq_handler screenOffState).1).all (fun e => !(isGpioDrive e))
      = true ∧
    ((fb_notifier_callback FB_EARLY_EVENT_BLANK FB_BLANK_POWERDOWN okState).2.1).all
      (fun e => !(isGpioDrive e)) = true ∧
    (fpc1020_suspend_resume okState).all (fun e => !(isGpioDrive e)) = true ∧
    ((report_home_set 0 "down" 4).1).all (fun e => !(isGpioDrive e)) = true ∧
    okState.rst_gpio = 0 := by decide

/-- Claim C4 amended: the module defines the reset timing constants and an
`rst_gpio` field but never requests or drives the reset GPIO.  In every
environment and state, every operation's trace is free of GPIO output writes
and delays, and the only GPIO request labels ever issued are the irq and
hardware-id lines (part of `opEffectOk`). -/
theorem claim_C4_amended_reset_gpio_unused (env : ProbeEnv) (s : FpcState)
    (event : Nat) (blank : Int) (ignor count : Nat) (buf : String)
    (gv : Int → Int) :
    ((fpc1020_probe env).2).all (fun e => !(isGpioDrive e)) = true ∧
    ((fpc1020_probe env).2).all opEffectOk = true ∧
    ((fpc1020_irq_handler s).1).all (fun e => !(isGpioDrive e)) = true ∧
    ((fb_notifier_callback event blank s).2.1).all (fun e => !(isGpioDrive e))
      = true ∧
    (fpc1020_suspend_resume s).all (fun e => !(isGpioDrive e)) = true ∧
    ((report_home_set ignor buf count).1).all (fun e => !(isGpioDrive e))
      = true ∧
    ((update_info_set buf count).1).all (fun e => !(isGpioDrive e)) = true ∧
    ((irq_get gv s).1).all (fun e => !(isGpioDrive e)) = true ∧
    ((irq_ack count).1).all (fun e => !(isGpioDrive e)) = true ∧
    ((screen_state_get s).1).all (fun e => !(isGpioDrive e)) = true ∧
    ((sensor_version_get s).1).all (fun e => !(isGpioDrive e)) = true :=
  ⟨all_not_of_all_ok _ _ ok_no_gpio_drive (probe_all_ok env),
   probe_all_ok env,
   all_not_of_all_ok _ _ ok_no_gpio_drive (irq_handler_all_ok s),
   all_not_of_all_ok _ _ ok_no_gpio_drive (fb_callback_all_ok event blank s),
   all_not_of_all_ok _ _ ok_no_gpio_drive (suspend_resume_all_ok s),
   all_not_of_all_ok _ _ ok_no_gpio_drive (report_home_all_ok ignor count buf),
   all_not_of_all_ok _ _ ok_no_gpio_drive (update_info_all_ok buf count),
   all_not_of_all_ok _ _ ok_no_gpio_drive (irq_get_all_ok gv s),
   all_not_of_all_ok _ _ ok_no_gpio_drive (irq_ack_all_ok count),
   all_not_of_all_ok _ _ ok_no_gpio_drive (screen_state_get_all_ok s),
   all_not_of_all_ok _ _ ok_no_gpio_drive (sensor_version_get_all_ok s)⟩

/-- Claim C5 is false on the code: a full probe run performs no pinctrl
operation at all — no `devm_pinctrl_get`, no state lookup, no state select. -/
theorem claim_C5_counterexample :
    ((fpc1020_probe okEnv).2).all (fun e => !(isPinctrlOp e)) = true ∧
    (fpc1020_probe okEnv).1 = Except.ok okState := by
  refine ⟨by decide, rfl⟩

/-- Claim C5 amended: the pinctrl init/select functions exist in the file only
under `#ifndef ONEPLUS_EDIT`, and `ONEPLUS_EDIT` is defined unconditionally,
so they are compiled out; in every environment and state no operation of the
module — probe included — performs any pinctrl call. -/
theorem claim_C5_amended_pinctrl_compiled_out (env : ProbeEnv) (s : FpcState)
    (event : Nat) (blank : Int) (ignor count : Nat) (buf : String)
    (gv : Int → Int) :
    ((fpc1020_probe env).2).all (fun e => !(isPinctrlOp e)) = true ∧
    ((fpc1020_irq_handler s).1).all (fun e => !(isPinctrlOp e)) = true ∧
    ((fb_notifier_callback event blank s).2.1).all (fun e => !(isPinctrlOp e))
      = true ∧
    (fpc1020_suspend_resume s).all (fun e => !(isPinctrlOp e)) = true ∧
    ((report_home_set ignor buf count).1).all (fun e => !(isPinctrlOp e))
      = true ∧
    ((update_info_set buf count).1).all (fun e => !(isPinctrlOp e)) = true ∧
    ((irq_get gv s).1).all (fun e => !(isPinctrlOp e)) = true ∧
    ((irq_ack count).1).all (fun e => !(isPinctrlOp e)) = true ∧
    ((screen_state_get s).1).all (fun e => !(isPinctrlOp e)) = true ∧
    ((sensor_version_get s).1).all (fun e => !(isPinctrlOp e)) = true :=
  ⟨all_not_of_all_ok _ _ ok_no_pinctrl (probe_all_ok env),
   all_not_of_all_ok _ _ ok_no_pinctrl (irq_handler_all_ok s),
   all_not_of_all_ok _ _ ok_no_pinctrl (fb_callback_all_ok event blank s),
   all_not_of_all_ok _ _ ok_no_pinctrl (suspend_resume_all_ok s),
   all_not_of_all_ok _ _ ok_no_pinctrl (report_home_all_ok ignor count buf),
   all_not_of_all_ok _ _ ok_no_pinctrl (update_info_all_ok buf count),
   all_not_of_all_ok _ _ ok_no_pinctrl (irq_get_all_ok gv s),
   all_not_of_all_ok _ _ ok_no_pinctrl (irq_ack_all_ok count),
   all_not_of_all_ok _ _ ok_no_pinctrl (screen_state_get_all_ok s),
   all_not_of_all_ok _ _ ok_no_pinctrl (sensor_version_get_all_ok s)⟩

/-- Claim C6: no operation of the module — probe, interrupt handler,
framebuffer callback, deferred work, or any sysfs handler — performs an SPI
transaction, in any environment and any state. -/
theorem claim_C6_no_spi_transactions (env : ProbeEnv) (s : FpcState)
    (event : Nat) (blank : Int) (ignor count : Nat) (buf : String)
    (gv : Int → Int) :
    ((fpc1020_probe env).2).all (fun e => !(isSpiOp e)) = true ∧
    ((fpc1020_irq_handler s).1).all (fun e => !(isSpiOp e)) = true ∧
    ((fb_notifier_callback event blank s).2.1).all (fun e => !(isSpiOp e))
      = true ∧
    (fpc1020_suspend_resume s).all (fun e => !(isSpiOp e)) = true ∧
    ((report_home_set ignor buf count).1).all (fun e => !(isSpiOp e)) = true ∧
    ((update_info_set buf count).1).all (fun e => !(isSpiOp e)) = true ∧
    ((irq_get gv s).1).all (fun e => !(isSpiOp e)) = true ∧
    ((irq_ack count).1).all (fun e => !(isSpiOp e)) = true ∧
    ((screen_state_get s).1).all (fun e => !(isSpiOp e)) = true ∧
    ((sensor_version_get s).1).all (fun e => !(isSpiOp e)) = true :=
  ⟨all_not_of_all_ok _ _ ok_no_spi (probe_all_ok env),
   all_not_of_all_ok _ _ ok_no_spi (irq_handler_all_ok s),
   all_not_of_all_ok _ _ ok_no_spi (fb_callback_all_ok event blank s),
   all_not_of_all_ok _ _ ok_no_spi (suspend_resume_all_ok s),
   all_not_of_all_ok _ _ ok_no_spi (report_home_all_ok ignor count buf),
   all_not_of_all_ok _ _ ok_no_spi (update_info_all_ok buf count),
   all_not_of_all_ok _ _ ok_no_spi (irq_get_all_ok gv s),
   all_not_of_all_ok _ _ ok_no_spi (irq_ack_all_ok count),
   all_not_of_all_ok _ _ ok_no_spi (screen_state_get_all_ok s),
   all_not_of_all_ok _ _ ok_no_spi (sensor_version_get_all_ok s)⟩

/-- Claim C7 is false on the code: with the screen on and an interrupt racing
an early-blank powerdown, the schedule that runs the fb callback's
`screen_state` write before the handler's read produces a KEY_FINGERPRINT
press while the schedule that runs the handler first produces none — the two
interleavings have different userspace-visible traces, and neither path ever
acquires the driver's mutex. -/
theorem claim_C7_counterexample :
    ((runSched [false, false] 1 0 irqThread fbPowerdownThread ==
      runSched [true, true, true, true] 1 0 irqThread fbPowerdownThread)
        = false) ∧
    (runSched [false, false] 1 0 irqThread fbPowerdownThread).countP
      (fun e => e == Effect.inputReportKey KEY_FINGERPRINT 1) = 1 ∧
    (runSched [true, true, true, true] 1 0 irqThread fbPowerdownThread).countP
      (fun e => e == Effect.inputReportKey KEY_FINGERPRINT 1) = 0 ∧
    (runSched [false, false] 1 0 irqThread fbPowerdownThread).countP
      (fun e => e == Effect.mutexLock) = 0 ∧
    (runSched [true, true, true, true] 1 0 irqThread fbPowerdownThread).countP
      (fun e => e == Effect.mutexLock) = 0 := by decide

/-- Claim C7 amended: the driver's mutex is initialised but never acquired, so
the handler's read of `screen_state` is unsynchronised against the fb
callback's write and the KEY_FINGERPRINT emission depends on the
interleaving; what does hold is that every interleaving of the interrupt
handler with the powerdown callback emits exactly one sysfs `irq`
notification and acquires no lock. -/
theorem claim_C7_amended_notify_once_no_lock (sched : List Bool)
    (screen : Int) :
    (runSched sched screen 0 irqThread fbPowerdownThread).countP
      (fun e => e == Effect.sysfsNotify "irq") = 1 ∧
    (runSched sched screen 0 irqThread fbPowerdownThread).countP
      (fun e => e == Effect.mutexLock) = 0 := by
  constructor
  · rw [runSched_countP _ notifyCount runAction_notifyCount]
    rfl
  · rw [runSched_countP _ (fun _ => 0) runAction_mutexCount]
    rfl

/-- Claim C8: the interrupt handler reports a KEY_FINGERPRINT press followed
by a release exactly when the screen is off (`screen_state = 0`); with the
screen on it still wake-locks and notifies but emits no input key event. -/
theorem claim_C8_key_iff_screen_off (s : FpcState) :
    (s.screen_state = 0 →
      (fpc1020_irq_handler s).1 =
        [Effect.wakeLockTimeout FPC_TTW_HOLD_TIME, Effect.sysfsNotify "irq",
         Effect.inputReportKey KEY_FINGERPRINT 1, Effect.inputSync,
         Effect.inputReportKey KEY_FINGERPRINT 0, Effect.inputSync]) ∧
    (s.screen_state ≠ 0 →
      (fpc1020_irq_handler s).1 =
        [Effect.wakeLockTimeout FPC_TTW_HOLD_TIME, Effect.sysfsNotify "irq"]) := by
  constructor <;> intro h <;> simp [fpc1020_irq_handler, h]

/-- Claim C8 witness: both branches of the handler evaluated at concrete
screen-off and screen-on states. -/
theorem claim_C8_witness :
    screenOffState.screen_state = 0 ∧
    (fpc1020_irq_handler screenOffState).1 =
      [Effect.wakeLockTimeout FPC_TTW_HOLD_TIME, Effect.sysfsNotify "irq",
       Effect.inputReportKey KEY_FINGERPRINT 1, Effect.inputSync,
       Effect.inputReportKey KEY_FINGERPRINT 0, Effect.inputSync] ∧
    (okState.screen_state == 0) = false ∧
    (fpc1020_irq_handler okState).1 =
      [Effect.wakeLockTimeout FPC_TTW_HOLD_TIME, Effect.sysfsNotify "irq"] :=
  ⟨rfl, (claim_C8_key_iff_screen_off screenOffState).1 rfl,
   by decide, (claim_C8_key_iff_screen_off okState).2 (by decide)⟩

/-- Claim C9: `report_home_set` behaves exactly as claimed — `-EINVAL` with no
input event when `ignor_home_for_ESD` is nonzero or the buffer starts with
none of `down`, `up`, `timeout`; otherwise exactly the corresponding key
events and the full count — stated as equality with the spec-side definition
`report_home_claimed`. -/
theorem claim_C9_report_home_matches_claim (ignor count : Nat) (buf : String) :
    report_home_set ignor buf count = report_home_claimed ignor buf count := by
  unfold report_home_set report_home_claimed
  split_ifs <;> simp_all

/-- Claim C10: after a successful probe, `sensor_version` is `0x01` or `0x02`;
it is `0x01` exactly when the three hardware-id GPIO readings match an
fpc1245 pattern — (1,1,1), (1,0,0) or (0,0,1) under the C nonzero-is-true
reading — and the `sensor_version` sysfs read returns this value. -/
theorem claim_C10_sensor_version_invariant (env : ProbeEnv) (s : FpcState)
    (h : (fpc1020_probe env).1 = Except.ok s) :
    (s.sensor_version = 0x01 ∨ s.sensor_version = 0x02) ∧
    (s.sensor_version = 0x01 ↔
      fpc1245Pattern (env.gpio_value s.id0_gpio) (env.gpio_value s.id1_gpio)
        (env.gpio_value s.id2_gpio)) ∧
    (sensor_version_get s).2 = s.sensor_version := by
  obtain ⟨-, -, hv⟩ := probe_ok_state env s h
  refine ⟨?_, ?_, rfl⟩
  · rw [hv]
    exact sensor_id_decode_fst _ _ _
  · rw [hv]
    exact sensor_id_decode_one_iff _ _ _

/-- Claim C10 witness: a successful concrete probe (all id GPIOs read 1, the
O-film fpc1245 pattern) with its invariant instantiated. -/
theorem claim_C10_witness :
    (fpc1020_probe okEnv).1 = Except.ok okState ∧
    ((okState.sensor_version = 0x01 ∨ okState.sensor_version = 0x02) ∧
     (okState.sensor_version = 0x01 ↔
       fpc1245Pattern (okEnv.gpio_value okState.id0_gpio)
         (okEnv.gpio_value okState.id1_gpio)
         (okEnv.gpio_value okState.id2_gpio)) ∧
     (sensor_version_get okState).2 = okState.sensor_version) :=
  ⟨rfl, claim_C10_sensor_version_invariant okEnv okState rfl⟩

end Fpc1020
